import Mathlib

/-!
Verification of the DTED Level-2 decoder (`srtm-dted.py`).

The Python source is shallowly embedded below.  Byte strings are modelled as
`List Nat` (each entry a byte value), Python `float` values carrying decimal
coordinate literals are modelled exactly as rationals (`ℚ`), Python `int`
values as `Int`, and every fallible operation returns `Except PyError`.
`PyError` distinguishes the script's own `ParseError` (the spec's
`FormatError`) from the built-in exceptions (`ValueError` from `int()` /
`float()`, `struct.error` from `unpack`, `IndexError` from sequence
indexing) that the script can also raise.
-/

deriving instance DecidableEq for Except

attribute [local semireducible] Rat.mul Rat.inv Rat.add Rat.sub Rat.ofScientific

/-- The error taxonomy visible in the Python source: `parseError` is the
script's own `ParseError` class (called `FormatError` by the spec); the
other constructors stand for the Python built-in exceptions that the
script's operations can raise. -/
inductive PyError where
  | parseError (msg : String)
  | valueError
  | structError
  | indexError
deriving DecidableEq, Repr

/-- Bytes of a binary file / byte string, most significant first in any
multi-byte group; each entry is one byte (a value `< 256`). -/
abbrev Bytes := List Nat

/-- Embedding of `decode_be16nc` (line 28): decode a 16-bit raw elevation
sample in the DTED sign-magnitude convention; `0xffff` means unknown and
becomes `none` (Python `None`). -/
def decode_be16nc (x : Nat) : Option Int :=
  if x = 0xffff then none
  else if 0x8000 ≤ x then some (0x8000 - (x : Int))
  else some (x : Int)

/-- Embedding of the `GeoCoord` attribute bag: `type` and `hemi` keep the
class-level default `None` (here `none`) when `from_str` takes neither
hemisphere branch; `hms` is the `D.MMSS` coordinate number. -/
structure GeoCoord where
  type : Option String
  hemi : Option Char
  hms : ℚ
deriving DecidableEq, Repr

/-- Python `math.trunc` on an exact decimal value: round toward zero. -/
def ratTrunc (q : ℚ) : Int := if 0 ≤ q then ⌊q⌋ else ⌈q⌉

/-- Numeric value of a digit list (most significant first). -/
def digitsToNat (cs : List Char) : Nat :=
  cs.foldl (fun a c => 10 * a + (c.toNat - 48)) 0

/-- Unsigned decimal literal accepted by Python `float`: digits with at
most one dot and at least one digit (`"1."`, `".5"`, `"10.5911"`). -/
def parseUnsignedFloat (cs : List Char) : Option ℚ :=
  let ip := cs.takeWhile Char.isDigit
  let rest := cs.dropWhile Char.isDigit
  match rest with
  | [] => if ip.isEmpty then none else some (digitsToNat ip : ℚ)
  | '.' :: fp =>
    if fp.all Char.isDigit ∧ (¬ ip.isEmpty ∨ ¬ fp.isEmpty) then
      some ((digitsToNat ip : ℚ) + (digitsToNat fp : ℚ) / (10 : ℚ) ^ fp.length)
    else none
  | _ => none

/-- Python `float(s)` on the decimal literals relevant here: optional
surrounding spaces, optional sign, decimal mantissa; `none` models the
`ValueError` raised on anything else. -/
def parsePyFloat (cs : List Char) : Option ℚ :=
  let t := ((cs.dropWhile (· = ' ')).reverse.dropWhile (· = ' ')).reverse
  match t with
  | '+' :: r => parseUnsignedFloat r
  | '-' :: r => (parseUnsignedFloat r).map Neg.neg
  | r => parseUnsignedFloat r

/-- Embedding of `GeoCoord.from_str` (line 55): take the trailing character
(uppercased) as hemisphere — silently leaving `type`/`hemi` as `None` when
it is not one of `N`/`S`/`W`/`E` — then parse the remaining text with
`float`, whose failure is a `ValueError`.  `str[-1]` on an empty token
raises `IndexError`. -/
def fromStr (s : String) : Except PyError GeoCoord :=
  match s.toList.getLast? with
  | none => .error .indexError
  | some ch =>
    let H := ch.toUpper
    let ty : Option String :=
      if H = 'N' ∨ H = 'S' then some "latitude"
      else if H = 'W' ∨ H = 'E' then some "longitude"
      else none
    let he : Option Char :=
      if H = 'N' ∨ H = 'S' then some H
      else if H = 'W' ∨ H = 'E' then some H
      else none
    match parsePyFloat s.toList.dropLast with
    | none => .error .valueError
    | some q => .ok ⟨ty, he, q⟩

/-- Embedding of `GeoCoord.deci` (line 72): `erg = trunc(x)` followed by two
iterations of `erg *= 60; x *= 100; erg += trunc(x) % 100`, returning
`erg / 3600` (true division, hence a rational). -/
def deci (g : GeoCoord) : ℚ :=
  ((((List.range 2).foldl
      (fun p _ => (p.1 * 60 + ratTrunc (p.2 * 100) % 100, p.2 * 100))
      (ratTrunc g.hms, g.hms)).1 : Int) : ℚ) / 3600

/-- Embedding of `GeoCoord.sub_coord` (line 84). -/
def sub_coord (g : GeoCoord) : Int :=
  let x0 := (ratTrunc (100 * g.hms) % 100) % 15
  let x1 := ratTrunc (10000 * g.hms) % 100
  if g.hemi = some 'N' ∨ g.hemi = some 'E' then 60 * x0 + x1
  else 900 - 60 * x0 - x1

/-- Python `'%0*d' % x` zero padding: pad the decimal digits to the given
total width with leading zeros, the sign column included for negatives. -/
def padZeros (w : Nat) (s : String) : String :=
  String.mk (List.replicate (w - s.length) '0') ++ s

/-- Python `'%06d'`-style formatting of an integer at a given width. -/
def pyFormat (w : Nat) (x : Int) : String :=
  if x < 0 then "-" ++ padZeros (w - 1) (toString x.natAbs)
  else padZeros w (toString x.natAbs)

/-- The hemisphere letter as a string (empty for the `None` default; in the
source it is always set whenever `type` is set). -/
def hemiStr : Option Char → String
  | some c => String.singleton c
  | none => ""

/-- Embedding of `GeoCoord.mapname` (line 96): the tile-name fragment of the
coordinate; falls off the end (Python returns `None`) when `type` was never
set. -/
def mapname (g : GeoCoord) : Option String :=
  let x := ratTrunc (g.hms * 100)
  let x2 :=
    if g.hemi = some 'N' ∨ g.hemi = some 'E' then (x - ((x % 100) % 15)) * 100
    else (x - ((x % 100) % 15) + 15) * 100
  if g.type = some "latitude" then some (hemiStr g.hemi ++ pyFormat 6 x2)
  else if g.type = some "longitude" then some (hemiStr g.hemi ++ pyFormat 7 x2)
  else none

/-- The tile filename composed by `height` (line 209): longitude fragment,
then latitude fragment, then the fixed suffix.  `none` models the
`TypeError` Python would raise when a fragment is `None`. -/
def tileName (long lat : GeoCoord) : Option String := do
  let a ← mapname long
  let b ← mapname lat
  some (a ++ b ++ "_SRTM_1_DEM.dt2")

/-- Python list indexing `l[i]`: a negative index counts from the end of the
list; an index outside `[-len, len)` raises `IndexError`. -/
def pyIndex {α : Type} (l : List α) (i : Int) : Except PyError α :=
  let j := if i < 0 then i + l.length else i
  if h : 0 ≤ j ∧ j.toNat < l.length then .ok (l.get ⟨j.toNat, h.2⟩)
  else .error .indexError

/-- The grid indexing step of `height` (line 211):
`dted.data[long.sub_coord()][lat.sub_coord()]`. -/
def heightIndex (data : List (List (Option Int))) (long lat : GeoCoord) :
    Except PyError (Option Int) :=
  Except.bind (pyIndex data (sub_coord long)) fun row => pyIndex row (sub_coord lat)

/-- Value of a big-endian byte group. -/
def beVal (bs : Bytes) : Nat := bs.foldl (fun a b => 256 * a + b) 0

/-- A 16-bit word reinterpreted as a two's-complement signed value
(`struct` format `h`). -/
def sint16 (n : Nat) : Int := if n < 0x8000 then (n : Int) else (n : Int) - 0x10000

/-- A 32-bit word reinterpreted as a two's-complement signed value
(`struct` format `i`). -/
def sint32 (n : Nat) : Int :=
  if n < 0x80000000 then (n : Int) else (n : Int) - 0x100000000

/-- A signed value wrapped to 32 bits (the arithmetic the spec describes for
the checksum sum: signed 32-bit integers). -/
def wrap32 (n : Int) : Int := (n + 2 ^ 31) % 2 ^ 32 - 2 ^ 31

/-- Digit run parsed as a natural number; `none` when empty or non-digit
bytes appear. -/
def parseDigitBytes (bs : Bytes) : Option Nat :=
  if bs ≠ [] ∧ bs.all (fun b => 48 ≤ b ∧ b ≤ 57) then
    some (bs.foldl (fun a b => 10 * a + (b - 48)) 0)
  else none

/-- Python `int(bs)` on an ASCII byte field: optional surrounding spaces,
optional sign, at least one digit; `none` models the `ValueError` raised on
anything else. -/
def parsePyInt (bs : Bytes) : Option Int :=
  let t := ((bs.dropWhile (· = 32)).reverse.dropWhile (· = 32)).reverse
  match t with
  | 43 :: ds => (parseDigitBytes ds).map (fun n => (n : Int))
  | 45 :: ds => (parseDigitBytes ds).map (fun n => -(n : Int))
  | ds => (parseDigitBytes ds).map (fun n => (n : Int))

/-- `int()` as the decoder uses it: failure is a fatal `ValueError`. -/
def pyInt (bs : Bytes) : Except PyError Int :=
  match parsePyInt bs with
  | some v => .ok v
  | none => .error .valueError

/-- Bytes produced by Python `f.read(k)` at a stream position: a negative
count reads to the end of the file, otherwise at most `k` bytes. -/
def pyRead (c : Bytes) (k : Int) : Bytes :=
  if k < 0 then c else c.take k.toNat

/-- Stream remainder after Python `f.read(k)`. -/
def pyRest (c : Bytes) (k : Int) : Bytes :=
  if k < 0 then [] else c.drop k.toNat

/-- `struct.unpack('>B', bs)[0]`: exactly one byte. -/
def unpackB (bs : Bytes) : Except PyError Nat :=
  match bs with
  | [b] => .ok b
  | _ => .error .structError

/-- `struct.unpack('>I', b'\x00' + bs)[0]` as used for the 24-bit sequence
number: exactly three bytes must have been read. -/
def unpackSeq (bs : Bytes) : Except PyError Nat :=
  match bs with
  | [b1, b2, b3] => .ok (65536 * b1 + 256 * b2 + b3)
  | _ => .error .structError

/-- `struct.unpack('>H', bs)[0]`: exactly two bytes, big-endian unsigned. -/
def unpackH (bs : Bytes) : Except PyError Nat :=
  match bs with
  | [b1, b2] => .ok (256 * b1 + b2)
  | _ => .error .structError

/-- `struct.unpack('>i', bs)[0]`: exactly four bytes, big-endian
two's-complement signed. -/
def unpacki (bs : Bytes) : Except PyError Int :=
  match bs with
  | [b1, b2, b3, b4] => .ok (sint32 (((b1 * 256 + b2) * 256 + b3) * 256 + b4))
  | _ => .error .structError

/-- Byte pairs decoded as big-endian two's-complement 16-bit values
(format `h`), most significant byte first. -/
def pairsS16 : Bytes → List Int
  | b1 :: b2 :: rest => sint16 (256 * b1 + b2) :: pairsS16 rest
  | _ => []

/-- Byte pairs decoded as big-endian unsigned 16-bit values (format `H`). -/
def pairsU16 : Bytes → List Nat
  | b1 :: b2 :: rest => (256 * b1 + b2) :: pairsU16 rest
  | _ => []

/-- `struct.unpack('>' + n*'h', bs)`: the byte string must hold exactly `n`
16-bit groups. -/
def unpackS16s (n : Nat) (bs : Bytes) : Except PyError (List Int) :=
  if bs.length = 2 * n then .ok (pairsS16 bs) else .error .structError

/-- `struct.unpack('>' + n*'H', bs)`: unsigned variant. -/
def unpackU16s (n : Nat) (bs : Bytes) : Except PyError (List Nat) :=
  if bs.length = 2 * n then .ok (pairsU16 bs) else .error .structError

/-- Framing validation of one data record (lines 170–181): the `0xAA`
sentinel byte, the 24-bit sequence number, the longitude record index that
must equal the loop index, and the latitude record index that must be zero.
Returns the stream after the 8 framing bytes. -/
def checkFraming (i : Nat) (c : Bytes) : Except PyError Bytes :=
  Except.bind (unpackB (c.take 1)) fun sentinel =>
  if sentinel ≠ 0xaa then .error (.parseError "wrong magic in data block")
  else
    Except.bind (unpackSeq ((c.drop 1).take 3)) fun _seq =>
    Except.bind (unpackH ((c.drop 4).take 2)) fun long_cnt =>
    if long_cnt ≠ i then
      .error (.parseError ("unexpected longitude number: " ++ toString long_cnt))
    else
      Except.bind (unpackH ((c.drop 6).take 2)) fun lat_cnt =>
      if lat_cnt ≠ 0 then .error (.parseError "latitude count not zero")
      else .ok (c.drop 8)

/-- Body of one data record after framing (lines 184–195): read
`2 * num_lat` bytes of samples, read and unpack the 4-byte checksum, sum
the samples as signed 16-bit values (`901*'h'`, the Level-2 fixed count),
compare, and finally decode the same bytes as unsigned 16-bit values
through `decode_be16nc`. -/
def recordBody (i : Nat) (numLat : Int) (c : Bytes) :
    Except PyError (List (Option Int) × Bytes) :=
  Except.bind (unpacki ((pyRest c (2 * numLat)).take 4)) fun checksum =>
  Except.bind (unpackS16s 901 (pyRead c (2 * numLat))) fun shorts =>
  if shorts.sum ≠ checksum then
    .error (.parseError ("checksum failed on longitude " ++ toString i ++
      "., should be: " ++ toString checksum ++ " but is " ++ toString shorts.sum))
  else
    Except.bind (unpackU16s numLat.toNat (pyRead c (2 * numLat))) fun raws =>
    .ok (raws.map decode_be16nc, (pyRest c (2 * numLat)).drop 4)

/-- One full data record: framing then body. -/
def readRecord (i : Nat) (numLat : Int) (c : Bytes) :
    Except PyError (List (Option Int) × Bytes) :=
  Except.bind (checkFraming i c) fun c' => recordBody i numLat c'

/-- The record loop (`for i in range(self.num_long)`, line 168), reading
`fuel` records starting at loop index `i`. -/
def dataRecords (numLat : Int) : Nat → Nat → Bytes → Except PyError (List (List (Option Int)))
  | _, 0, _ => .ok []
  | i, fuel + 1, c =>
    Except.bind (readRecord i numLat c) fun rc =>
    Except.bind (dataRecords numLat (i + 1) fuel rc.2) fun rest =>
    .ok (rc.1 :: rest)

/-- The decoded `DTED` attributes as set by `fromfile`; the two 8-byte
origin strings and the opaque fields are kept as raw bytes. -/
structure DTED where
  longitude : Bytes
  latitude : Bytes
  longival : ℚ
  latival : ℚ
  vacc : Option Int
  usc : Bytes
  uref : Bytes
  num_long : Int
  num_lat : Int
  mult_acc : Int
  reserved : Bytes
  data : List (List (Option Int))
deriving DecidableEq, Repr

/-- Embedding of `DTED.fromfile` (line 121) over the whole file's bytes.
The strictly sequential `f.read` calls are written as the equivalent
take/drop slices at the fixed header offsets of the UHL layout (0 magic,
3 version, 4 longitude, 12 latitude, 20 longitude interval, 24 latitude
interval, 28 vertical accuracy, 32 classification, 35 reference, 47
longitude lines, 51 latitude points, 55 multiple accuracy, 56 reserved),
then the 648-byte DSI and 2700-byte ACC blocks are skipped, so the data
records start at offset 3428. -/
def fromfile (file : Bytes) : Except PyError DTED :=
  if file.take 3 ≠ [0x55, 0x48, 0x4c] then .error (.parseError "wrong magic")
  else if (file.drop 3).take 1 ≠ [0x31] then .error (.parseError "wrong version")
  else
    Except.bind (pyInt ((file.drop 20).take 4)) fun li =>
    Except.bind (pyInt ((file.drop 24).take 4)) fun la =>
    Except.bind
      (if (file.drop 28).take 4 = [0x4e, 0x41, 0x20, 0x20] then .ok none
       else Except.map some (pyInt ((file.drop 28).take 4))) fun vacc =>
    Except.bind (pyInt ((file.drop 47).take 4)) fun num_long =>
    Except.bind (pyInt ((file.drop 51).take 4)) fun num_lat =>
    Except.bind (pyInt ((file.drop 55).take 1)) fun mult_acc =>
    Except.bind (dataRecords num_lat 0 num_long.toNat (file.drop 3428)) fun rows =>
    .ok ⟨(file.drop 4).take 8, (file.drop 12).take 8, (li : ℚ) / 10, (la : ℚ) / 10,
      vacc, (file.drop 32).take 3, (file.drop 35).take 12, num_long, num_lat,
      mult_acc, (file.drop 56).take 24, rows⟩

/-- A complete 80-byte DTED file whose UHL header declares zero longitude
lines (`num_long = "0000"`) and 900 latitude points (`num_lat = "0900"`):
the record loop then runs zero times, so the file ends at the header. -/
def file80 : Bytes :=
  [0x55, 0x48, 0x4c] ++ [0x31] ++
  List.replicate 8 32 ++ List.replicate 8 32 ++
  [48, 48, 49, 48] ++ [48, 48, 49, 48] ++
  [78, 65, 32, 32] ++
  List.replicate 3 32 ++ List.replicate 12 32 ++
  [48, 48, 48, 48] ++ [48, 57, 48, 48] ++
  [48] ++ List.replicate 24 32

/-- The decoded result of `file80`: an empty grid with `num_lat = 900`. -/
def r80 : DTED :=
  ⟨List.replicate 8 32, List.replicate 8 32, 1, 1, none, List.replicate 3 32,
    List.replicate 12 32, 0, 900, 0, List.replicate 24 32, []⟩

/-- The sub-index formula exactly as the spec words it for the N/E
hemispheres, with a true floor: `60*x0 + x1` where
`x0 = (floor(100*v) mod 100) mod 15` and `x1 = floor(10000*v) mod 100`. -/
def subIndexSpecNE (v : ℚ) : Int :=
  60 * ((⌊(100 : ℚ) * v⌋ % 100) % 15) + ⌊(10000 : ℚ) * v⌋ % 100

/-- The sub-index formula exactly as the spec words it for the S/W
hemispheres: `900 - 60*x0 - x1`. -/
def subIndexSpecSW (v : ℚ) : Int :=
  900 - 60 * ((⌊(100 : ℚ) * v⌋ % 100) % 15) - ⌊(10000 : ℚ) * v⌋ % 100

/-- The decimal-degrees algorithm exactly as the spec words it, with a true
floor: `acc = floor(v)`; twice `acc = acc*60; v = v*100;
acc += floor(v) mod 100`; return `acc/3600`. -/
def deciSpec (v : ℚ) : ℚ :=
  ((((List.range 2).foldl
      (fun p _ => (p.1 * 60 + ⌊p.2 * 100⌋ % 100, p.2 * 100))
      (⌊v⌋, v)).1 : Int) : ℚ) / 3600

theorem sint16_bounds (b1 b2 : Nat) (h1 : b1 < 256) (h2 : b2 < 256) :
    -32768 ≤ sint16 (256 * b1 + b2) ∧ sint16 (256 * b1 + b2) ≤ 32767 := by
  unfold sint16
  split <;> omega

theorem pairsS16_sum_bound (bs : Bytes) (hb : ∀ b ∈ bs, b < 256) :
    (pairsS16 bs).sum.natAbs ≤ 32768 * bs.length := by
  induction bs using pairsS16.induct with
  | case1 b1 b2 rest ih =>
    have h1 : b1 < 256 := hb b1 (by simp)
    have h2 : b2 < 256 := hb b2 (by simp)
    have hrest := ih (fun b hbb => hb b (by simp [hbb]))
    have hs := sint16_bounds b1 b2 h1 h2
    rw [pairsS16]
    simp only [List.sum_cons, List.length_cons]
    omega
  | case2 bs h1 =>
    rw [pairsS16.eq_def]
    rcases bs with _ | ⟨a, _ | ⟨b, t⟩⟩ <;> simp_all

theorem wrap32_eq_of_bounds (s : Int) (h1 : -(2 ^ 31) ≤ s) (h2 : s < 2 ^ 31) :
    wrap32 s = s := by
  unfold wrap32
  omega

theorem wrap32_rowsum (row : Bytes) (hb : ∀ b ∈ row, b < 256)
    (hrow : row.length = 1802) : wrap32 (pairsS16 row).sum = (pairsS16 row).sum := by
  have := pairsS16_sum_bound row hb
  rw [hrow] at this
  exact wrap32_eq_of_bounds _ (by omega) (by omega)

theorem recordBody_ok_901 (i : Nat) (n : Int) (c : Bytes)
    (x : List (Option Int) × Bytes) (h : recordBody i n c = .ok x) : n = 901 := by
  unfold recordBody at h
  rcases h1 : unpacki ((pyRest c (2 * n)).take 4) with e | ck
  · rw [h1] at h; simp [Except.bind] at h
  rw [h1] at h; simp only [Except.bind] at h
  rcases h2 : unpackS16s 901 (pyRead c (2 * n)) with e | shorts
  · rw [h2] at h; simp [Except.bind] at h
  rw [h2] at h; simp only [Except.bind] at h
  have hlen1 : (pyRead c (2 * n)).length = 2 * 901 := by
    unfold unpackS16s at h2
    by_cases hL : (pyRead c (2 * n)).length = 2 * 901
    · exact hL
    · rw [if_neg hL] at h2; cases h2
  split at h
  · cases h
  rcases h3 : unpackU16s n.toNat (pyRead c (2 * n)) with e | raws
  · rw [h3] at h; simp [Except.bind] at h
  have hlen2 : (pyRead c (2 * n)).length = 2 * n.toNat := by
    unfold unpackU16s at h3
    by_cases hL : (pyRead c (2 * n)).length = 2 * n.toNat
    · exact hL
    · rw [if_neg hL] at h3; cases h3
  omega

theorem readRecord_ok_901 (i : Nat) (n : Int) (c : Bytes)
    (x : List (Option Int) × Bytes) (h : readRecord i n c = .ok x) : n = 901 := by
  unfold readRecord at h
  rcases h1 : checkFraming i c with e | c'
  · rw [h1] at h; simp [Except.bind] at h
  · rw [h1] at h; simp only [Except.bind] at h
    exact recordBody_ok_901 i n c' x h

theorem dataRecords_ok_901 (n : Int) (i fuel : Nat) (c : Bytes)
    (rows : List (List (Option Int)))
    (h : dataRecords n i (fuel + 1) c = .ok rows) : n = 901 := by
  unfold dataRecords at h
  rcases h1 : readRecord i n c with e | rc
  · rw [h1] at h; simp [Except.bind] at h
  · exact readRecord_ok_901 i n c rc h1

theorem pairsS16_replicate_zero (n : Nat) :
    pairsS16 (List.replicate (2 * n) 0) = List.replicate n 0 := by
  induction n with
  | zero => rfl
  | succ m ih =>
    have h2 : 2 * (m + 1) = (2 * m) + 1 + 1 := by ring
    rw [h2, List.replicate_succ, List.replicate_succ, pairsS16, ih,
      List.replicate_succ]
    norm_num [sint16]

theorem readRecord_error_propagates (n : Int) (i fuel : Nat) (c : Bytes)
    (e : PyError) (h : readRecord i n c = .error e) :
    dataRecords n i (fuel + 1) c = .error e := by
  unfold dataRecords
  rw [h]
  simp [Except.bind]

/-- C1: for every 16-bit input `raw`, `decode_be16nc` returns `none`
(absent) at `0xFFFF`, `-(raw - 0x8000)` on `[0x8000, 0xFFFE]`, `raw` itself
below `0x8000`, and never the numeric value `-32767`. -/
theorem decode_be16nc_spec (raw : Nat) (h16 : raw < 0x10000) :
    (raw = 0xffff → decode_be16nc raw = none) ∧
    (0x8000 ≤ raw → raw ≤ 0xfffe → decode_be16nc raw = some (-((raw : Int) - 0x8000))) ∧
    (raw < 0x8000 → decode_be16nc raw = some (raw : Int)) ∧
    decode_be16nc raw ≠ some (-32767) := by
  refine ⟨fun h1 => by simp [decode_be16nc, h1], fun h1 h2 => ?_, fun h1 => ?_, ?_⟩
  · have hne : raw ≠ 0xffff := by omega
    simp only [decode_be16nc, if_neg hne, if_pos h1, Option.some.injEq]
    omega
  · have hne : raw ≠ 0xffff := by omega
    have hlt : ¬ 0x8000 ≤ raw := by omega
    simp [decode_be16nc, hne, hlt]
  · by_cases h1 : raw = 0xffff
    · simp [decode_be16nc, h1]
    · by_cases h2 : 0x8000 ≤ raw
      · simp only [decode_be16nc, if_neg h1, if_pos h2, ne_eq, Option.some.injEq]
        omega
      · simp only [decode_be16nc, if_neg h1, if_neg h2, ne_eq, Option.some.injEq]
        omega

/-- Witness for C1 at the concrete input `0x8001`. -/
theorem decode_be16nc_spec_witness :
    decode_be16nc 0x8001 = some (-((0x8001 : Int) - 0x8000)) :=
  (decode_be16nc_spec 0x8001 (by decide)).2.1 (by decide) (by decide)

/-- C2: a data record whose framing validates (sentinel `0xAA`, longitude
index equal to the loop index, latitude index zero) but whose stored 4-byte
big-endian signed checksum differs from the sum — as signed 32-bit
integers — of its 901 raw samples read as big-endian signed 16-bit
two's-complement values makes the decoder fail with the `ParseError`
(`FormatError`) naming the record index, the expected value and the
computed value; the record loop propagates the error, so no grid is
produced by that load. -/
theorem checksum_mismatch_aborts (i : Nat) (s1 s2 s3 l1 l2 k1 k2 k3 k4 : Nat)
    (row rest c : Bytes)
    (hc : c = 0xaa :: s1 :: s2 :: s3 :: l1 :: l2 :: 0 :: 0 ::
      (row ++ [k1, k2, k3, k4] ++ rest))
    (hl : 256 * l1 + l2 = i)
    (hrow : row.length = 1802)
    (hbytes : ∀ b ∈ row, b < 256)
    (hmm : sint32 (((k1 * 256 + k2) * 256 + k3) * 256 + k4) ≠
      wrap32 (pairsS16 row).sum) :
    readRecord i 901 c =
      .error (.parseError ("checksum failed on longitude " ++ toString i ++
        "., should be: " ++
        toString (sint32 (((k1 * 256 + k2) * 256 + k3) * 256 + k4)) ++
        " but is " ++ toString (pairsS16 row).sum)) ∧
    ∀ fuel, dataRecords 901 i (fuel + 1) c =
      .error (.parseError ("checksum failed on longitude " ++ toString i ++
        "., should be: " ++
        toString (sint32 (((k1 * 256 + k2) * 256 + k3) * 256 + k4)) ++
        " but is " ++ toString (pairsS16 row).sum)) := by
  subst hc
  subst hl
  have e1 : (0xaa :: s1 :: s2 :: s3 :: l1 :: l2 :: 0 :: 0 ::
      (row ++ [k1, k2, k3, k4] ++ rest)).take 1 = [0xaa] := rfl
  have e2 : ((0xaa :: s1 :: s2 :: s3 :: l1 :: l2 :: 0 :: 0 ::
      (row ++ [k1, k2, k3, k4] ++ rest)).drop 1).take 3 = [s1, s2, s3] := rfl
  have e3 : ((0xaa :: s1 :: s2 :: s3 :: l1 :: l2 :: 0 :: 0 ::
      (row ++ [k1, k2, k3, k4] ++ rest)).drop 4).take 2 = [l1, l2] := rfl
  have e4 : ((0xaa :: s1 :: s2 :: s3 :: l1 :: l2 :: 0 :: 0 ::
      (row ++ [k1, k2, k3, k4] ++ rest)).drop 6).take 2 = [0, 0] := rfl
  have e5 : (0xaa :: s1 :: s2 :: s3 :: l1 :: l2 :: 0 :: 0 ::
      (row ++ [k1, k2, k3, k4] ++ rest)).drop 8 = row ++ [k1, k2, k3, k4] ++ rest := rfl
  have hframe : checkFraming (256 * l1 + l2)
      (0xaa :: s1 :: s2 :: s3 :: l1 :: l2 :: 0 :: 0 ::
        (row ++ [k1, k2, k3, k4] ++ rest)) =
      .ok (row ++ [k1, k2, k3, k4] ++ rest) := by
    simp [checkFraming, e1, e2, e3, e4, e5, unpackB, unpackSeq, unpackH, Except.bind]
  have htn : ((2 * 901 : Int)).toNat = row.length := by rw [hrow]; rfl
  have hread : pyRead (row ++ [k1, k2, k3, k4] ++ rest) (2 * 901) = row := by
    unfold pyRead
    rw [if_neg (by norm_num), htn, List.append_assoc, List.take_left]
  have hrest2 : pyRest (row ++ [k1, k2, k3, k4] ++ rest) (2 * 901) =
      [k1, k2, k3, k4] ++ rest := by
    unfold pyRest
    rw [if_neg (by norm_num), htn, List.append_assoc, List.drop_left]
  have htake4 : (([k1, k2, k3, k4] ++ rest).take 4) = [k1, k2, k3, k4] := rfl
  have hup : unpacki [k1, k2, k3, k4] =
      .ok (sint32 (((k1 * 256 + k2) * 256 + k3) * 256 + k4)) := rfl
  have hs16 : unpackS16s 901 row = .ok (pairsS16 row) := by
    unfold unpackS16s
    rw [if_pos (by rw [hrow])]
  have hw := wrap32_rowsum row hbytes hrow
  have hne : (pairsS16 row).sum ≠ sint32 (((k1 * 256 + k2) * 256 + k3) * 256 + k4) :=
    fun hEq => hmm ((hw.trans hEq).symm)
  have hrr : readRecord (256 * l1 + l2) 901
      (0xaa :: s1 :: s2 :: s3 :: l1 :: l2 :: 0 :: 0 ::
        (row ++ [k1, k2, k3, k4] ++ rest)) =
      .error (.parseError ("checksum failed on longitude " ++ toString (256 * l1 + l2) ++
        "., should be: " ++
        toString (sint32 (((k1 * 256 + k2) * 256 + k3) * 256 + k4)) ++
        " but is " ++ toString (pairsS16 row).sum)) := by
    unfold readRecord
    rw [hframe]
    simp only [Except.bind]
    unfold recordBody
    rw [hrest2, htake4, hup, hread, hs16]
    simp only [Except.bind]
    rw [if_pos hne]
  exact ⟨hrr, fun fuel => readRecord_error_propagates 901 (256 * l1 + l2) fuel _ _ hrr⟩

/-- Witness for C2: a record at loop index 0 whose 901 samples are all zero
(signed sum 0) but whose stored checksum is 1 fails with the checksum
`ParseError`. -/
theorem checksum_mismatch_aborts_witness :
    readRecord 0 901 (0xaa :: 0 :: 0 :: 0 :: 0 :: 0 :: 0 :: 0 ::
      (List.replicate 1802 0 ++ [0, 0, 0, 1] ++ [])) =
    .error (.parseError ("checksum failed on longitude " ++ toString 0 ++
      "., should be: " ++
      toString (sint32 (((0 * 256 + 0) * 256 + 0) * 256 + 1)) ++
      " but is " ++ toString (pairsS16 (List.replicate 1802 0)).sum)) :=
  (checksum_mismatch_aborts 0 0 0 0 0 0 0 0 0 1 (List.replicate 1802 0) [] _
    rfl rfl (List.length_replicate 1802 0)
    (fun b hb => by rw [List.eq_of_mem_replicate hb]; norm_num)
    (by
      have h := pairsS16_replicate_zero 901
      norm_num at h
      rw [h]
      norm_num [sint32, wrap32])).1

/-- C3: a data record fails with the script's `ParseError` (`FormatError`)
when its first byte is not `0xAA` (`"wrong magic in data block"`), or its
big-endian longitude record index differs from the loop index
(`"unexpected longitude number"`), or its big-endian latitude record index
is not zero (`"latitude count not zero"`); when all three checks pass the
record's framing is accepted and parsing proceeds past the 8 framing
bytes. -/
theorem record_framing_checks (i : Nat) (b s1 s2 s3 l1 l2 a1 a2 : Nat)
    (rest c : Bytes)
    (hc : c = b :: s1 :: s2 :: s3 :: l1 :: l2 :: a1 :: a2 :: rest) :
    (b ≠ 0xaa → ∀ numLat, readRecord i numLat c =
      .error (.parseError "wrong magic in data block")) ∧
    (b = 0xaa → 256 * l1 + l2 ≠ i → ∀ numLat, readRecord i numLat c =
      .error (.parseError ("unexpected longitude number: " ++
        toString (256 * l1 + l2)))) ∧
    (b = 0xaa → 256 * l1 + l2 = i → 256 * a1 + a2 ≠ 0 → ∀ numLat,
      readRecord i numLat c = .error (.parseError "latitude count not zero")) ∧
    (b = 0xaa → 256 * l1 + l2 = i → 256 * a1 + a2 = 0 →
      checkFraming i c = .ok rest) := by
  subst hc
  have e1 : (b :: s1 :: s2 :: s3 :: l1 :: l2 :: a1 :: a2 :: rest).take 1 = [b] := rfl
  have e2 : ((b :: s1 :: s2 :: s3 :: l1 :: l2 :: a1 :: a2 :: rest).drop 1).take 3 =
      [s1, s2, s3] := rfl
  have e3 : ((b :: s1 :: s2 :: s3 :: l1 :: l2 :: a1 :: a2 :: rest).drop 4).take 2 =
      [l1, l2] := rfl
  have e4 : ((b :: s1 :: s2 :: s3 :: l1 :: l2 :: a1 :: a2 :: rest).drop 6).take 2 =
      [a1, a2] := rfl
  have e5 : (b :: s1 :: s2 :: s3 :: l1 :: l2 :: a1 :: a2 :: rest).drop 8 = rest := rfl
  refine ⟨fun hb numLat => ?_, fun hb hl numLat => ?_, fun hb hl ha numLat => ?_,
    fun hb hl ha => ?_⟩
  · simp [readRecord, checkFraming, e1, unpackB, Except.bind, hb]
  · subst hb
    simp [readRecord, checkFraming, e1, e2, e3, unpackB, unpackSeq, unpackH,
      Except.bind, hl]
  · subst hb hl
    simp [readRecord, checkFraming, e1, e2, e3, e4, unpackB, unpackSeq, unpackH,
      Except.bind, ha]
  · subst hb hl
    simp [checkFraming, e1, e2, e3, e4, e5, unpackB, unpackSeq, unpackH,
      Except.bind, ha]

/-- Witness for C3: a record at loop index 259 with sentinel `0xAA`,
longitude index bytes `[1, 3]` (value 259) and latitude index zero passes
the framing validation. -/
theorem record_framing_checks_witness :
    checkFraming 259 [0xaa, 7, 8, 9, 1, 3, 0, 0] = .ok [] :=
  (record_framing_checks 259 0xaa 7 8 9 1 3 0 0 [] _ rfl).2.2.2 rfl rfl rfl

/-- C10 (amended): a load can only return a grid when the header's declared
latitude point count is exactly 901 or its declared longitude line count is
at most zero (so the record loop never runs): the checksum step always
unpacks exactly 901 signed 16-bit values from the row buffer of
`2 * num_lat` bytes, so with at least one record no other latitude count
can survive the first record. -/
theorem fromfile_ok_shape (file : Bytes) (r : DTED) (h : fromfile file = .ok r) :
    r.num_lat = 901 ∨ r.num_long ≤ 0 := by
  unfold fromfile at h
  split at h
  · cases h
  split at h
  · cases h
  rcases h1 : pyInt ((file.drop 20).take 4) with e | li
  · rw [h1] at h; simp [Except.bind] at h
  rw [h1] at h; simp only [Except.bind] at h
  rcases h2 : pyInt ((file.drop 24).take 4) with e | la
  · rw [h2] at h; simp [Except.bind] at h
  rw [h2] at h; simp only [Except.bind] at h
  rcases h3 : (if (file.drop 28).take 4 = [0x4e, 0x41, 0x20, 0x20] then
      (.ok none : Except PyError (Option Int))
    else Except.map some (pyInt ((file.drop 28).take 4))) with e | vacc
  · rw [h3] at h; simp [Except.bind] at h
  rw [h3] at h; simp only [Except.bind] at h
  rcases h4 : pyInt ((file.drop 47).take 4) with e | nl
  · rw [h4] at h; simp [Except.bind] at h
  rw [h4] at h; simp only [Except.bind] at h
  rcases h5 : pyInt ((file.drop 51).take 4) with e | n
  · rw [h5] at h; simp [Except.bind] at h
  rw [h5] at h; simp only [Except.bind] at h
  rcases h6 : pyInt ((file.drop 55).take 1) with e | ma
  · rw [h6] at h; simp [Except.bind] at h
  rw [h6] at h; simp only [Except.bind] at h
  rcases h7 : dataRecords n 0 nl.toNat (file.drop 3428) with e | rows
  · rw [h7] at h; simp [Except.bind] at h
  rw [h7] at h; simp only [Except.bind] at h
  cases h
  by_cases hnl : nl ≤ 0
  · exact Or.inr hnl
  · left
    obtain ⟨m, hm⟩ : ∃ m, nl.toNat = m + 1 := ⟨nl.toNat - 1, by omega⟩
    rw [hm] at h7
    exact dataRecords_ok_901 n 0 m _ rows h7

/-- Witness for C10 (amended), applied to the concrete header-only file
`file80`. -/
theorem fromfile_ok_shape_witness : r80.num_lat = 901 ∨ r80.num_long ≤ 0 :=
  fromfile_ok_shape file80 r80 (by decide)

/-- C10 counterexample: `file80` declares `num_lat = 900` (not 901) and
`num_long = 0`, yet the load does not fail at a data record — it succeeds
and returns the empty grid. -/
theorem fromfile_succeeds_without_901 :
    fromfile file80 = .ok r80 ∧ r80.num_lat = 900 ∧ r80.num_long = 0 ∧
      r80.data = [] := by
  refine ⟨by decide, rfl, rfl, rfl⟩

/-- C4 counterexample: at the negative raw value `-0.505` (hemisphere N)
the source's `sub_coord`, which truncates toward zero, disagrees with the
claim's floor-based formula (350 versus 290). -/
theorem sub_coord_floor_counterexample :
    sub_coord ⟨some "latitude", some 'N', -(101 / 200)⟩ = 350 ∧
    subIndexSpecNE (-(101 / 200)) = 290 ∧
    sub_coord ⟨some "latitude", some 'N', -(101 / 200)⟩ ≠
      subIndexSpecNE (-(101 / 200)) := by
  refine ⟨by decide, by decide, by decide⟩

/-- C4 (amended): for every GeoCoord with nonnegative raw value `v`, where
truncation toward zero and floor agree, `sub_coord` computes exactly the
claimed formula: `60*x0 + x1` for N/E and `900 - 60*x0 - x1` for S/W. -/
theorem sub_coord_spec (t : Option String) (v : ℚ) (hv : 0 ≤ v) :
    sub_coord ⟨t, some 'N', v⟩ = subIndexSpecNE v ∧
    sub_coord ⟨t, some 'E', v⟩ = subIndexSpecNE v ∧
    sub_coord ⟨t, some 'S', v⟩ = subIndexSpecSW v ∧
    sub_coord ⟨t, some 'W', v⟩ = subIndexSpecSW v := by
  have h1 : ratTrunc (100 * v) = ⌊(100 : ℚ) * v⌋ :=
    if_pos (mul_nonneg (by norm_num) hv)
  have h2 : ratTrunc (10000 * v) = ⌊(10000 : ℚ) * v⌋ :=
    if_pos (mul_nonneg (by norm_num) hv)
  refine ⟨?_, ?_, ?_, ?_⟩ <;>
    simp [sub_coord, subIndexSpecNE, subIndexSpecSW, h1, h2]

/-- Witness for C4 (amended) at the longitude value of the worked example,
`10.5911`. -/
theorem sub_coord_spec_witness :
    sub_coord ⟨some "longitude", some 'N', 105911 / 10000⟩ =
      subIndexSpecNE (105911 / 10000) :=
  (sub_coord_spec (some "longitude") (105911 / 10000) (by norm_num)).1

/-- C5: the lookup's grid indexing does not fail with `IndexError` for every
sub-index outside `[0, len)`: a negative in-range sub-index wraps around,
Python style, and yields a numeric result.  The longitude coordinate
`0.1499W` has sub-index `-39`, yet indexing a 40-row grid with it succeeds
and returns row `40 - 39 = 1`. -/
theorem height_negative_index_wraps :
    fromStr "0.1499W" = .ok ⟨some "longitude", some 'W', 1499 / 10000⟩ ∧
    sub_coord ⟨some "longitude", some 'W', 1499 / 10000⟩ = -39 ∧
    heightIndex (List.replicate 40 [some 7])
      ⟨some "longitude", some 'W', 1499 / 10000⟩
      ⟨some "latitude", some 'N', 0⟩ = .ok (some 7) := by
  refine ⟨by decide, by decide, by decide⟩

/-- C6: `from_str` performs no hemisphere validation — on the token
`10.5911X` it raises nothing and builds a `GeoCoord` whose `type` and
`hemi` keep the class-level default `None` — and a malformed number such as
`4x.2516N` raises the built-in `ValueError` from `float`, not the script's
`ParseError`. -/
theorem fromStr_no_validation :
    fromStr "10.5911X" = .ok ⟨none, none, 105911 / 10000⟩ ∧
    fromStr "4x.2516N" = .error .valueError := by
  refine ⟨by decide, by decide⟩

/-- C7: for the longitude `10.5911E` and the latitude `47.2516N` the tile
filename composed as longitude fragment, latitude fragment, suffix is
exactly `E0104500N471500_SRTM_1_DEM.dt2`. -/
theorem tileName_example :
    ((fromStr "10.5911E").toOption.bind fun lon =>
      (fromStr "47.2516N").toOption.bind fun lat => tileName lon lat) =
      some "E0104500N471500_SRTM_1_DEM.dt2" := by decide

/-- C8 counterexample: at the negative raw value `-0.505` the source's
`deci`, which truncates toward zero, disagrees with the claim's floor-based
algorithm (3050/3600 versus -610/3600). -/
theorem deci_floor_counterexample :
    deci ⟨some "latitude", some 'N', -(101 / 200)⟩ = 3050 / 3600 ∧
    deciSpec (-(101 / 200)) = -610 / 3600 ∧
    deci ⟨some "latitude", some 'N', -(101 / 200)⟩ ≠ deciSpec (-(101 / 200)) := by
  refine ⟨by decide, by decide, by decide⟩

/-- C8 (amended): for every GeoCoord with nonnegative raw value `v`, where
truncation toward zero and floor agree, `deci` returns exactly the claimed
algorithm's value: `acc = floor(v)`, then twice `acc = acc*60 + (floor of
the 100-scaled value mod 100)`, finally `acc/3600`. -/
theorem deci_spec (t : Option String) (h : Option Char) (v : ℚ) (hv : 0 ≤ v) :
    deci ⟨t, h, v⟩ = deciSpec v := by
  have h0 : ratTrunc v = ⌊v⌋ := if_pos hv
  have h1 : ratTrunc (v * 100) = ⌊v * 100⌋ :=
    if_pos (mul_nonneg hv (by norm_num))
  have h2 : ratTrunc (v * 100 * 100) = ⌊v * 100 * 100⌋ :=
    if_pos (mul_nonneg (mul_nonneg hv (by norm_num)) (by norm_num))
  have hr : List.range 2 = [0, 1] := rfl
  simp [deci, deciSpec, hr, h0, h1, h2]

/-- Witness for C8 (amended) at the latitude value of the worked example,
`47.2516`. -/
theorem deci_spec_witness :
    deci ⟨some "latitude", some 'N', 472516 / 10000⟩ = deciSpec (472516 / 10000) :=
  deci_spec (some "latitude") (some 'N') (472516 / 10000) (by norm_num)

/-- C9: two coordinates with the same raw value and opposite hemispheres
(N against S, or E against W) have sub-indices that sum to exactly 900. -/
theorem sub_coord_mirror (t t' : Option String) (v : ℚ) :
    sub_coord ⟨t, some 'N', v⟩ + sub_coord ⟨t', some 'S', v⟩ = 900 ∧
    sub_coord ⟨t, some 'E', v⟩ + sub_coord ⟨t', some 'W', v⟩ = 900 := by
  constructor <;> · simp [sub_coord]; try ring

